import Mathlib

/-!
Verification of the cross-boundary marshaling and lifecycle layer of the
test-optimization SDK (src/sdks/rust/test-optimization-sdk).

The foreign (native) boundary is embedded shallowly: every `topt_*` call the
SDK makes is recorded as an `FFIEvent`, and results the foreign side would
return (created ids, raw one-byte booleans) are passed in as explicit
parameters.  Host strings are Lean `String`s; `CString::new` is modelled as a
check for an embedded null byte, returning `Except` (the Rust code calls
`.unwrap()`, so a violating string aborts the operation before any foreign
call — modelled as the `Except.error` case, with the events emitted so far as
the trace).  Ambient state that the Rust code reads
(`std::thread::panicking()`, `SystemTime::now()`) is passed as explicit
parameters, following the design note of the spec (§9).
-/

/-- Two-field Unix time record, from `lib`'s `topt_UnixTime`
(spec §4.1 / §6): seconds and sub-second nanoseconds. -/
structure topt_UnixTime where
  sec : Nat
  nsec : Nat
deriving Repr, DecidableEq

/-- From `utils.rs`: converts a C-style one-byte boolean to a host boolean;
any nonzero value is true. -/
def Bool_to_bool (value : Nat) : Bool :=
  value != 0

/-- Local encoding failure: `CString::new` on a string with an embedded null
byte (Rust `NulError`, spec §7 `EncodingError`). -/
inductive EncodingError where
  | nulError
deriving Repr, DecidableEq

/-- Inbound decode failure: dereferencing a null foreign string pointer
(`CStr::from_ptr` on null is undefined behavior; modelled as this error). -/
inductive DecodeError where
  | nullPointer
deriving Repr, DecidableEq

/-- Whether a host string contains an embedded null byte (the condition under
which Rust `CString::new` fails). -/
def hasNullByte (s : String) : Bool :=
  s.data.contains (Char.ofNat 0)

/-- Model of `CString::new` from the Rust standard library as used by the SDK: fails
exactly on an embedded null byte, otherwise passes the string through. -/
def CString.new (s : String) : Except EncodingError String :=
  if hasNullByte s then Except.error EncodingError.nulError else Except.ok s

/-- Model of `CString::new` mapped over an optional string (the
`working_directory.map(|wd| CString::new(wd...).unwrap())` pattern in
`init_with_values`). -/
def CString.newOpt (s : Option String) : Except EncodingError (Option String) :=
  match s with
  | none => Except.ok none
  | some wd =>
    match CString.new wd with
    | Except.error e => Except.error e
    | Except.ok c => Except.ok (some c)

/-- From `test.rs`: the possible statuses of a test execution. -/
inductive TestStatus where
  | Pass
  | Fail
  | Skip
deriving Repr, DecidableEq

/-- The Rust `status as u8` discriminant: Pass = 0, Fail = 1, Skip = 2. -/
def TestStatus.toNat : TestStatus → Nat
  | TestStatus.Pass => 0
  | TestStatus.Fail => 1
  | TestStatus.Skip => 2

/-- From `lib`: `topt_TestCloseOptions`.  The five `unused0*` fields are
always null in the SDK and are omitted; `skip_reason` is a nullable string
pointer, modelled as `Option String`. -/
structure topt_TestCloseOptions where
  status : Nat
  finish_time : topt_UnixTime
  skip_reason : Option String
deriving Repr, DecidableEq

/-- From `lib`: `topt_InitOptions`.  `environment_variables`, `global_tags`
and the `unused0*` fields are always null in the SDK and are omitted;
`use_mock_tracer` is the one-byte boolean the SDK sets to 1 or 0. -/
structure topt_InitOptions where
  language : String
  runtime_name : String
  runtime_version : String
  working_directory : Option String
  use_mock_tracer : Nat
deriving Repr, DecidableEq

/-- From `test_session.rs`: a test session handle (`session_id` only). -/
structure TestSession where
  session_id : Nat
deriving Repr, DecidableEq

/-- From `test_module.rs`: a module handle. -/
structure TestModule where
  session_id : Nat
  module_id : Nat
deriving Repr, DecidableEq

/-- From `test_suite.rs`: a suite handle. -/
structure TestSuite where
  session_id : Nat
  module_id : Nat
  suite_id : Nat
deriving Repr, DecidableEq

/-- From `test.rs`: a test handle. -/
structure Test where
  session_id : Nat
  module_id : Nat
  suite_id : Nat
  test_id : Nat
deriving Repr, DecidableEq

/-- One observable crossing of the foreign boundary.  Each constructor
corresponds to a `topt_*` call (or, for `allocArray`/`deallocArray`, to the
host-side `alloc`/`dealloc` of the flattened payload buffer) performed by the
SDK. -/
inductive FFIEvent where
  | initLib (opts : topt_InitOptions)
  | sessionCreate (now : topt_UnixTime)
  | sessionClose (session_id : Nat) (exit_code : Int) (now : topt_UnixTime)
  | shutdown
  | moduleCreate (session_id : Nat) (name framework_name framework_version : String)
      (now : topt_UnixTime)
  | suiteCreate (module_id : Nat) (name : String) (now : topt_UnixTime)
  | testCreate (suite_id : Nat) (name : String) (now : topt_UnixTime)
  | testSetStringTag (test_id : Nat) (key value : String)
  | testSetError (test_id : Nat) (error_type error_message error_stacktrace : String)
  | testClose (test_id : Nat) (options : topt_TestCloseOptions)
  | allocArray (len : Nat)
  | deallocArray (len : Nat)
  | sendCodeCoveragePayload (session_id suite_id test_id : Nat) (files : List String)
  | testSetBenchmarkStringData (test_id : Nat) (measure_type : String)
      (pairs : List (String × String))
  | testSetBenchmarkNumberData (test_id : Nat) (measure_type : String)
      (pairs : List (String × Float))

/-- Recognizer for the foreign session-create call, used to state that no
such call happens on the failed-initialization path. -/
def FFIEvent.isSessionCreate : FFIEvent → Bool
  | FFIEvent.sessionCreate _ => true
  | _ => false

/-- Model of `TestSession::close` (test_session.rs:285-295).  The Rust code reads
`std::thread::panicking()`; per the spec's design note (§9) the
unwind-in-progress condition is an explicit boolean here, and the wall clock
is the explicit `now`.  The foreign calls it makes are returned as the event
trace (the Rust function returns unit). -/
def TestSession.close (s : TestSession) (exit_code : Int) (panicking : Bool)
    (now : topt_UnixTime) : List FFIEvent :=
  if panicking then
    [FFIEvent.sessionClose s.session_id 1 now, FFIEvent.shutdown]
  else
    [FFIEvent.sessionClose s.session_id exit_code now, FFIEvent.shutdown]

/-- Model of `Test::close` (test.rs:119-134): closes with the given status, a null
`skip_reason`, and the current time; the foreign one-byte result is converted
with `Bool_to_bool`. -/
def Test.close (t : Test) (status : TestStatus) (now : topt_UnixTime)
    (foreignRaw : Nat) : Bool × List FFIEvent :=
  (Bool_to_bool foreignRaw,
    [FFIEvent.testClose t.test_id
      { status := status.toNat, finish_time := now, skip_reason := none }])

/-- Model of `Test::close_with_skip_reason` (test.rs:138-157): a non-empty reason
closes with status Skip and the reason attached; an empty reason delegates to
`Test::close(TestStatus::Skip)`. -/
def Test.close_with_skip_reason (t : Test) (skip_reason : String)
    (now : topt_UnixTime) (foreignRaw : Nat) :
    Except EncodingError (Bool × List FFIEvent) :=
  if !skip_reason.isEmpty then
    match CString.new skip_reason with
    | Except.error e => Except.error e
    | Except.ok r =>
      Except.ok (Bool_to_bool foreignRaw,
        [FFIEvent.testClose t.test_id
          { status := TestStatus.Skip.toNat, finish_time := now, skip_reason := some r }])
  else
    Except.ok (Test.close t TestStatus.Skip now foreignRaw)

/-- Model of `CString::new` applied to each key and value of the benchmark string map
(the loop of test.rs:217-234); the map is taken in its iteration order. -/
def kvPairsToCStrings : List (String × String) →
    Except EncodingError (List (String × String))
  | [] => Except.ok []
  | p :: rest =>
    match CString.new p.1 with
    | Except.error e => Except.error e
    | Except.ok k =>
      match CString.new p.2 with
      | Except.error e => Except.error e
      | Except.ok v =>
        match kvPairsToCStrings rest with
        | Except.error e => Except.error e
        | Except.ok cs => Except.ok ((k, v) :: cs)

/-- Model of `CString::new` applied to each key of the benchmark number map
(the loop of test.rs:273-284). -/
def knPairsToCStrings : List (String × Float) →
    Except EncodingError (List (String × Float))
  | [] => Except.ok []
  | p :: rest =>
    match CString.new p.1 with
    | Except.error e => Except.error e
    | Except.ok k =>
      match knPairsToCStrings rest with
      | Except.error e => Except.error e
      | Except.ok cs => Except.ok ((k, p.2) :: cs)

/-- Model of `Test::set_benchmark_string_data` (test.rs:201-253): an empty map returns
`true` immediately, with no allocation and no foreign call; otherwise the
pair array is allocated, keys/values and the measure type are converted, the
foreign call is made, and the array is deallocated. -/
def Test.set_benchmark_string_data (t : Test) (measure_type : String)
    (data : List (String × String)) (foreignRaw : Nat) :
    Except EncodingError Bool × List FFIEvent :=
  if data.length = 0 then
    (Except.ok true, [])
  else
    match kvPairsToCStrings data with
    | Except.error e => (Except.error e, [FFIEvent.allocArray data.length])
    | Except.ok pairs =>
      match CString.new measure_type with
      | Except.error e => (Except.error e, [FFIEvent.allocArray data.length])
      | Except.ok mt =>
        (Except.ok (Bool_to_bool foreignRaw),
          [FFIEvent.allocArray data.length,
           FFIEvent.testSetBenchmarkStringData t.test_id mt pairs,
           FFIEvent.deallocArray data.length])

/-- Model of `Test::set_benchmark_number_data` (test.rs:257-299): same shape as the
string variant, with only the keys converted. -/
def Test.set_benchmark_number_data (t : Test) (measure_type : String)
    (data : List (String × Float)) (foreignRaw : Nat) :
    Except EncodingError Bool × List FFIEvent :=
  if data.length = 0 then
    (Except.ok true, [])
  else
    match knPairsToCStrings data with
    | Except.error e => (Except.error e, [FFIEvent.allocArray data.length])
    | Except.ok pairs =>
      match CString.new measure_type with
      | Except.error e => (Except.error e, [FFIEvent.allocArray data.length])
      | Except.ok mt =>
        (Except.ok (Bool_to_bool foreignRaw),
          [FFIEvent.allocArray data.length,
           FFIEvent.testSetBenchmarkNumberData t.test_id mt pairs,
           FFIEvent.deallocArray data.length])

/-- Model of `Test::set_string_tag` (test.rs:52-62): converts key and value with
`CString::new` (aborting on an embedded null byte) and then makes the
boundary call. -/
def Test.set_string_tag (t : Test) (key value : String) (foreignRaw : Nat) :
    Except EncodingError Bool × List FFIEvent :=
  match CString.new key with
  | Except.error e => (Except.error e, [])
  | Except.ok k =>
    match CString.new value with
    | Except.error e => (Except.error e, [])
    | Except.ok v =>
      (Except.ok (Bool_to_bool foreignRaw), [FFIEvent.testSetStringTag t.test_id k v])

/-- Model of `Test::set_error_info` (test.rs:79-96): converts the three strings and
makes the boundary call. -/
def Test.set_error_info (t : Test)
    (error_type error_message error_stacktrace : String) (foreignRaw : Nat) :
    Except EncodingError Bool × List FFIEvent :=
  match CString.new error_type with
  | Except.error e => (Except.error e, [])
  | Except.ok et =>
    match CString.new error_message with
    | Except.error e => (Except.error e, [])
    | Except.ok em =>
      match CString.new error_stacktrace with
      | Except.error e => (Except.error e, [])
      | Except.ok es =>
        (Except.ok (Bool_to_bool foreignRaw),
          [FFIEvent.testSetError t.test_id et em es])

/-- Model of `TestSession::init_with_values` (test_session.rs:185-236): converts the
strings, calls `topt_initialize`; if that reports success (`initRaw`
nonzero) it calls `topt_session_create` and takes the returned id, otherwise
the session handle carries the `0` sentinel and no session-create call is
made.  `newSessionId` is the id the foreign session-create would return. -/
def TestSession.init_with_values (language_name runtime_name runtime_version : String)
    (working_directory : Option String) (use_mock_tracer : Bool)
    (initRaw : Nat) (newSessionId : Nat) (now : topt_UnixTime) :
    Except EncodingError TestSession × List FFIEvent :=
  match CString.new language_name with
  | Except.error e => (Except.error e, [])
  | Except.ok lang =>
    match CString.new runtime_name with
    | Except.error e => (Except.error e, [])
    | Except.ok rt =>
      match CString.new runtime_version with
      | Except.error e => (Except.error e, [])
      | Except.ok rtv =>
        match CString.newOpt working_directory with
        | Except.error e => (Except.error e, [])
        | Except.ok wd =>
          let opts : topt_InitOptions :=
            { language := lang, runtime_name := rt, runtime_version := rtv,
              working_directory := wd,
              use_mock_tracer := if use_mock_tracer then 1 else 0 }
          if Bool_to_bool initRaw then
            (Except.ok { session_id := newSessionId },
              [FFIEvent.initLib opts, FFIEvent.sessionCreate now])
          else
            (Except.ok { session_id := 0 }, [FFIEvent.initLib opts])

/-- Model of `TestSession::create_module` (test_session.rs:299-324): the child module
copies `session_id` from the session handle and takes its own id from the
foreign create result. -/
def TestSession.create_module (s : TestSession)
    (name framework_name framework_version : String)
    (newModuleId : Nat) (now : topt_UnixTime) :
    Except EncodingError (TestModule × List FFIEvent) :=
  match CString.new name with
  | Except.error e => Except.error e
  | Except.ok n =>
    match CString.new framework_name with
    | Except.error e => Except.error e
    | Except.ok fn =>
      match CString.new framework_version with
      | Except.error e => Except.error e
      | Except.ok fv =>
        Except.ok ({ session_id := s.session_id, module_id := newModuleId },
          [FFIEvent.moduleCreate s.session_id n fn fv now])

/-- Model of `TestModule::create_test_suite` (test_module.rs:84-99): the child suite
copies `session_id` and `module_id` from the module handle. -/
def TestModule.create_test_suite (m : TestModule) (name : String)
    (newSuiteId : Nat) (now : topt_UnixTime) :
    Except EncodingError (TestSuite × List FFIEvent) :=
  match CString.new name with
  | Except.error e => Except.error e
  | Except.ok n =>
    Except.ok ({ session_id := m.session_id, module_id := m.module_id,
                 suite_id := newSuiteId },
      [FFIEvent.suiteCreate m.module_id n now])

/-- Model of `TestSuite::create_test` (test_suite.rs:110-126): the child test copies
`session_id`, `module_id` and `suite_id` from the suite handle. -/
def TestSuite.create_test (u : TestSuite) (name : String)
    (newTestId : Nat) (now : topt_UnixTime) :
    Except EncodingError (Test × List FFIEvent) :=
  match CString.new name with
  | Except.error e => Except.error e
  | Except.ok n =>
    Except.ok ({ session_id := u.session_id, module_id := u.module_id,
                 suite_id := u.suite_id, test_id := newTestId },
      [FFIEvent.testCreate u.suite_id n now])

/-- Model of `Test::get_suite` (test.rs:46-48): rebuilds the parent suite handle from
the ids stored on the test. -/
def Test.get_suite (t : Test) : TestSuite :=
  { suite_id := t.suite_id, module_id := t.module_id, session_id := t.session_id }

/-- Model of `TestSuite::get_module` (test_suite.rs:28-30): rebuilds the parent module
handle from the ids stored on the suite. -/
def TestSuite.get_module (u : TestSuite) : TestModule :=
  { module_id := u.module_id, session_id := u.session_id }

/-- Model of `CString::new` applied to each coverage file name (the loop of
test.rs:168-180). -/
def filesToCStrings : List String → Except EncodingError (List String)
  | [] => Except.ok []
  | f :: rest =>
    match CString.new f with
    | Except.error e => Except.error e
    | Except.ok c =>
      match filesToCStrings rest with
      | Except.error e => Except.error e
      | Except.ok cs => Except.ok (c :: cs)

/-- Model of `Test::set_coverage_data` (test.rs:161-197): with NO special case for an
empty file list, it allocates an array of `files.len()` coverage records
(`alloc` runs before the per-file string conversions), sends the coverage
payload, and deallocates.  The Rust function returns unit; failures come only
from the string conversions. -/
def Test.set_coverage_data (t : Test) (files : List String) :
    Except EncodingError Unit × List FFIEvent :=
  match filesToCStrings files with
  | Except.error e => (Except.error e, [FFIEvent.allocArray files.length])
  | Except.ok cfiles =>
    (Except.ok (),
      [FFIEvent.allocArray files.length,
       FFIEvent.sendCodeCoveragePayload t.session_id t.suite_id t.test_id cfiles,
       FFIEvent.deallocArray files.length])

/-- Association-list lookup, modelling `HashMap` lookup by key (hash maps
are embedded as association lists; only lookup behavior matters). -/
def findA {β : Type} : List (String × β) → String → Option β
  | [], _ => none
  | (k0, v) :: rest, k => if k0 = k then some v else findA rest k

/-- The `entry(key).or_insert_with(init)` pattern followed by a mutation of
the entry: the value at `key` becomes `f` of the existing value, or `f init`
if the key was absent. -/
def updateAt {β : Type} : List (String × β) → String → β → (β → β) → List (String × β)
  | [], k, init, f => [(k, f init)]
  | (k0, v) :: rest, k, init, f =>
    if k0 = k then (k0, f v) :: rest else (k0, v) :: updateAt rest k init f

/-- The `entry(key).or_insert(v)` pattern with the result discarded: insert
only if the key is absent, never overwrite. -/
def insertIfAbsent {β : Type} (l : List (String × β)) (k : String) (v : β) :
    List (String × β) :=
  if (findA l k).isSome then l else l ++ [(k, v)]

/-- Model of `HashMap::insert`: last write per key wins. -/
def hashInsert {β : Type} : List (String × β) → String → β → List (String × β)
  | [], k, v => [(k, v)]
  | (k0, v0) :: rest, k, v =>
    if k0 = k then (k0, v) :: rest else (k0, v0) :: hashInsert rest k v

/-- A foreign string pointer decode: `CStr::from_ptr(p).to_string_lossy()`.
The SDK's catalog decoders perform NO null check, and `CStr::from_ptr` on a
null pointer is undefined behavior — modelled as the error case.  Foreign
strings are embedded as host strings, so the lossy conversion is the
identity. -/
def decodeCStr (p : Option String) : Except DecodeError String :=
  match p with
  | none => Except.error DecodeError.nullPointer
  | some s => Except.ok s

/-- From `lib`: one record of the foreign test-management result array, with
nullable string pointers and one-byte booleans. -/
structure topt_TestManagementTestProperties where
  module_name : Option String
  suite_name : Option String
  test_name : Option String
  quarantined : Nat
  disabled : Nat
  attempt_to_fix : Nat
deriving Repr, DecidableEq

/-- From `test_session.rs`: the host-side test-management record. -/
structure TestManagementTest where
  module_name : String
  suite_name : String
  test_name : String
  quarantined : Bool
  disabled : Bool
  attempt_to_fix : Bool
deriving Repr, DecidableEq

/-- The nested module name → suite name → test name → record map built by
`get_test_management_tests`. -/
abbrev TMMap := List (String × List (String × List (String × TestManagementTest)))

/-- The per-element string decodes and record construction performed in each
iteration of the `get_test_management_tests` loop
(test_session.rs:437-454). -/
def decodeTMRecord (e : topt_TestManagementTestProperties) :
    Except DecodeError TestManagementTest :=
  match decodeCStr e.module_name with
  | Except.error err => Except.error err
  | Except.ok m =>
    match decodeCStr e.suite_name with
    | Except.error err => Except.error err
    | Except.ok s =>
      match decodeCStr e.test_name with
      | Except.error err => Except.error err
      | Except.ok t =>
        Except.ok { module_name := m, suite_name := s, test_name := t,
                    quarantined := Bool_to_bool e.quarantined,
                    disabled := Bool_to_bool e.disabled,
                    attempt_to_fix := Bool_to_bool e.attempt_to_fix }

/-- The per-element map update of `get_test_management_tests`
(test_session.rs:445-454): `entry(..).or_insert_with` at the module and suite
levels, `entry(..).or_insert` (insert-if-absent) at the test level. -/
def tmInsert (acc : TMMap) (r : TestManagementTest) : TMMap :=
  updateAt acc r.module_name []
    (fun suites => updateAt suites r.suite_name []
      (fun tests => insertIfAbsent tests r.test_name r))

/-- The loop of `TestSession::get_test_management_tests`
(test_session.rs:430-459): decode each record in order, folding the map
updates; a null string field aborts the decode. -/
def tmAux : List topt_TestManagementTestProperties → TMMap →
    Except DecodeError TMMap
  | [], acc => Except.ok acc
  | e :: rest, acc =>
    match decodeTMRecord e with
    | Except.error err => Except.error err
    | Except.ok r => tmAux rest (tmInsert acc r)

/-- Model of `TestSession::get_test_management_tests` (test_session.rs:430-459), as a
function of the foreign result array. -/
def TestSession.get_test_management_tests
    (raw : List topt_TestManagementTestProperties) : Except DecodeError TMMap :=
  tmAux raw []

/-- Element-wise decode of the whole foreign array (tmAux separates into this
decode followed by a pure fold; see `tmAux_eq`). -/
def decodeTMList : List topt_TestManagementTestProperties →
    Except DecodeError (List TestManagementTest)
  | [] => Except.ok []
  | e :: rest =>
    match decodeTMRecord e with
    | Except.error err => Except.error err
    | Except.ok r =>
      match decodeTMList rest with
      | Except.error err => Except.error err
      | Except.ok rs => Except.ok (r :: rs)

/-- Lookup through all three levels of the nested test-management map. -/
def find3 (mm : TMMap) (m s t : String) : Option TestManagementTest :=
  match findA mm m with
  | none => none
  | some suites =>
    match findA suites s with
    | none => none
    | some tests => findA tests t

/-- Whether a decoded record is keyed by the given (module, suite, test)
names. -/
def tmMatches (m s t : String) (r : TestManagementTest) : Bool :=
  decide (r.module_name = m) && decide (r.suite_name = s) && decide (r.test_name = t)

/-- The null-checked string decode used by the MOCK decoders
(mock_tracer.rs:99-108, 140-144): a null pointer decodes to the empty host
string. -/
def cstrOrEmpty (p : Option String) : String :=
  match p with
  | none => ""
  | some s => s

/-- Model of `MockTracer::convert_key_value_array` (mock_tracer.rs:94-113): a null
array pointer yields the empty map; each pair's key and value are decoded
with the null check (null → empty string) and inserted with `HashMap::insert`
(last write per key wins). -/
def MockTracer.convert_key_value_array
    (array : Option (List (Option String × Option String))) :
    List (String × String) :=
  match array with
  | none => []
  | some pairs =>
    pairs.foldl (fun m p => hashInsert m (cstrOrEmpty p.1) (cstrOrEmpty p.2)) []

/-- The same foreign array with every null string field replaced by a
non-null empty string (used to state that null fields decode exactly like
empty strings in the mock decoders). -/
def normalizeKV (array : Option (List (Option String × Option String))) :
    Option (List (Option String × Option String)) :=
  match array with
  | none => none
  | some pairs =>
    some (pairs.map (fun p => (some (cstrOrEmpty p.1), some (cstrOrEmpty p.2))))

/-- From `lib`: one record of the foreign known-tests result array, with
nullable string pointers. -/
structure topt_KnownTest where
  module_name : Option String
  suite_name : Option String
  test_name : Option String
deriving Repr, DecidableEq

/-- The nested module name → suite name → test names map built by
`get_known_tests`. -/
abbrev KnownTestsMap := List (String × List (String × List String))

/-- Whether a known-tests record has a null string field (the inputs on
which the catalog decoder hits `CStr::from_ptr(null)`). -/
def hasNullNameField (e : topt_KnownTest) : Bool :=
  e.module_name.isNone || e.suite_name.isNone || e.test_name.isNone

/-- The loop of `TestSession::get_known_tests` (test_session.rs:370-392):
each record's three name fields go straight to `CStr::from_ptr` — there is NO
null check — and the test name is appended under its module and suite keys
(`entry(..).or_insert_with` at both levels, `push` at the leaf). -/
def knownAux : List topt_KnownTest → KnownTestsMap → Except DecodeError KnownTestsMap
  | [], acc => Except.ok acc
  | e :: rest, acc =>
    match decodeCStr e.module_name with
    | Except.error err => Except.error err
    | Except.ok m =>
      match decodeCStr e.suite_name with
      | Except.error err => Except.error err
      | Except.ok s =>
        match decodeCStr e.test_name with
        | Except.error err => Except.error err
        | Except.ok t =>
          knownAux rest
            (updateAt acc m []
              (fun suites => updateAt suites s [] (fun tests => tests ++ [t])))

/-- Model of `TestSession::get_known_tests` (test_session.rs:370-392), as a function
of the foreign result array. -/
def TestSession.get_known_tests (raw : List topt_KnownTest) :
    Except DecodeError KnownTestsMap :=
  knownAux raw []

/-- Whether a test-management record has a null string field. -/
def tmHasNullNameField (e : topt_TestManagementTestProperties) : Bool :=
  e.module_name.isNone || e.suite_name.isNone || e.test_name.isNone

/-- Model of `MockTracer::convert_key_number_array` (mock_tracer.rs:116-130):
a null array pointer yields the empty map; each pair's key is decoded with
the null check (null → empty string) and inserted with `HashMap::insert`
(last write per key wins); the value is passed through. -/
def MockTracer.convert_key_number_array
    (array : Option (List (Option String × Float))) : List (String × Float) :=
  match array with
  | none => []
  | some pairs =>
    pairs.foldl (fun m p => hashInsert m (cstrOrEmpty p.1) p.2) []

/-- The same foreign key/number array with every null key replaced by a
non-null empty string. -/
def normalizeKN (array : Option (List (Option String × Float))) :
    Option (List (Option String × Float)) :=
  match array with
  | none => none
  | some pairs =>
    some (pairs.map (fun p => (some (cstrOrEmpty p.1), p.2)))

/-- Model of `MockTracer::convert_unix_time` (mock_tracer.rs:89-91):
`UNIX_EPOCH + Duration::new(ut.sec, ut.nsec as u32)`.  The `as u32` cast
truncates the nanosecond field and `Duration::new` carries whole seconds out
of the nanosecond part. -/
def MockTracer.convert_unix_time (ut : topt_UnixTime) : topt_UnixTime :=
  { sec := ut.sec + (ut.nsec % 4294967296) / 1000000000,
    nsec := (ut.nsec % 4294967296) % 1000000000 }

/-- From `lib`: one record of the foreign mock-span array, with nullable
string pointers for the operation name and the tag keys/values. -/
structure topt_MockSpan where
  span_id : Nat
  trace_id : Nat
  parent_span_id : Nat
  start_time : topt_UnixTime
  finish_time : topt_UnixTime
  operation_name : Option String
  string_tags : Option (List (Option String × Option String))
  number_tags : Option (List (Option String × Float))
deriving Repr

/-- From `mock_tracer.rs`: the host-side mock span record. -/
structure MockSpan where
  span_id : Nat
  trace_id : Nat
  parent_span_id : Nat
  start_time : topt_UnixTime
  finish_time : topt_UnixTime
  operation_name : String
  string_tags : List (String × String)
  number_tags : List (String × Float)
deriving Repr

/-- Model of `MockTracer::convert_mock_span` (mock_tracer.rs:133-148): a null
operation name decodes to the empty host string; the tag arrays are decoded
with the null-checked converters. -/
def MockTracer.convert_mock_span (mock : topt_MockSpan) : MockSpan :=
  { span_id := mock.span_id,
    trace_id := mock.trace_id,
    parent_span_id := mock.parent_span_id,
    start_time := MockTracer.convert_unix_time mock.start_time,
    finish_time := MockTracer.convert_unix_time mock.finish_time,
    operation_name := cstrOrEmpty mock.operation_name,
    string_tags := MockTracer.convert_key_value_array mock.string_tags,
    number_tags := MockTracer.convert_key_number_array mock.number_tags }

/-- The same foreign mock span with every null string field replaced by a
non-null empty string. -/
def normalizeMockSpan (mock : topt_MockSpan) : topt_MockSpan :=
  { mock with
    operation_name := some (cstrOrEmpty mock.operation_name),
    string_tags := normalizeKV mock.string_tags,
    number_tags := normalizeKN mock.number_tags }

/-- Model of `MockTracer::convert_mock_span_array` (mock_tracer.rs:151-160):
a null array pointer yields the empty vector; otherwise each record is
converted in order. -/
def MockTracer.convert_mock_span_array (array : Option (List topt_MockSpan)) :
    List MockSpan :=
  match array with
  | none => []
  | some spans => spans.map MockTracer.convert_mock_span

/-- From `lib`: one record of the foreign skippable-tests result array, with
nullable string pointers. -/
structure topt_SkippableTestProperties where
  suite_name : Option String
  test_name : Option String
  parameters : Option String
  custom_configurations_json : Option String
deriving Repr, DecidableEq

/-- From `test_session.rs`: the host-side skippable-test record. -/
structure SkippableTest where
  suite_name : String
  test_name : String
  parameters : String
  custom_configurations_json : String
deriving Repr, DecidableEq

/-- The nested suite name → test name → records map built by
`get_skippable_tests`. -/
abbrev SkippableTestsMap := List (String × List (String × List SkippableTest))

/-- Whether a skippable-tests record has a null string field (the inputs on
which the catalog decoder hits `CStr::from_ptr(null)`). -/
def skHasNullField (e : topt_SkippableTestProperties) : Bool :=
  e.suite_name.isNone || e.test_name.isNone || e.parameters.isNone ||
    e.custom_configurations_json.isNone

/-- The loop of `TestSession::get_skippable_tests` (test_session.rs:396-426):
each record's four string fields go straight to `CStr::from_ptr` — there is
NO null check — and the record is appended under its suite and test keys
(`entry(..).or_insert_with` at both levels, `push` at the leaf). -/
def skippableAux : List topt_SkippableTestProperties → SkippableTestsMap →
    Except DecodeError SkippableTestsMap
  | [], acc => Except.ok acc
  | e :: rest, acc =>
    match decodeCStr e.suite_name with
    | Except.error err => Except.error err
    | Except.ok s =>
      match decodeCStr e.test_name with
      | Except.error err => Except.error err
      | Except.ok t =>
        match decodeCStr e.parameters with
        | Except.error err => Except.error err
        | Except.ok pa =>
          match decodeCStr e.custom_configurations_json with
          | Except.error err => Except.error err
          | Except.ok cc =>
            skippableAux rest
              (updateAt acc s []
                (fun tests => updateAt tests t []
                  (fun lst => lst ++
                    [{ suite_name := s, test_name := t, parameters := pa,
                       custom_configurations_json := cc }])))

/-- Model of `TestSession::get_skippable_tests` (test_session.rs:396-426), as
a function of the foreign result array. -/
def TestSession.get_skippable_tests (raw : List topt_SkippableTestProperties) :
    Except DecodeError SkippableTestsMap :=
  skippableAux raw []

/-- Claim C1: `TestSession::close(c)` invoked while the host process is
unwinding from a panic makes the foreign close call with exit code 1 instead
of `c`, and `topt_shutdown` is invoked right after the close on every path,
panicking or not. -/
theorem session_close_panicking_forces_failure (s : TestSession) (c : Int)
    (panicking : Bool) (now : topt_UnixTime) :
    TestSession.close s c panicking now =
      [FFIEvent.sessionClose s.session_id (if panicking then 1 else c) now,
       FFIEvent.shutdown] := by
  cases panicking <;> rfl

/-- Claim C3: both benchmark-data setters, called with an empty map, return
`true` with an empty event trace: no allocation and no foreign call. -/
theorem benchmark_empty_map_short_circuits (t : Test) (measure_type : String)
    (foreignRaw : Nat) :
    Test.set_benchmark_string_data t measure_type [] foreignRaw
        = (Except.ok true, []) ∧
      Test.set_benchmark_number_data t measure_type [] foreignRaw
        = (Except.ok true, []) :=
  ⟨rfl, rfl⟩

/-- Claim C4: `close_with_skip_reason("")` performs exactly the foreign close
call of `close(TestStatus.Skip)` — status 2 (Skip), no skip reason attached,
same result. -/
theorem close_empty_skip_reason_eq_close_skip (t : Test) (now : topt_UnixTime)
    (foreignRaw : Nat) :
    Test.close_with_skip_reason t "" now foreignRaw
        = Except.ok (Test.close t TestStatus.Skip now foreignRaw) ∧
      (Test.close t TestStatus.Skip now foreignRaw).2
        = [FFIEvent.testClose t.test_id
            { status := 2, finish_time := now, skip_reason := none }] :=
  ⟨rfl, rfl⟩

/-- Shape of a successful `create_module`: the module handle copies the
session id and takes the foreign-assigned module id. -/
theorem create_module_ok (s : TestSession) (mn fw fwv : String) (mid : Nat)
    (now : topt_UnixTime) (m : TestModule) (ev : List FFIEvent)
    (h : TestSession.create_module s mn fw fwv mid now = Except.ok (m, ev)) :
    m = { session_id := s.session_id, module_id := mid } := by
  unfold TestSession.create_module at h
  split at h
  · simp at h
  · split at h
    · simp at h
    · split at h
      · simp at h
      · simp at h
        exact h.1.symm

/-- Shape of a successful `create_test_suite`: the suite handle copies the
session and module ids and takes the foreign-assigned suite id. -/
theorem create_test_suite_ok (m : TestModule) (sn : String) (sid : Nat)
    (now : topt_UnixTime) (u : TestSuite) (ev : List FFIEvent)
    (h : TestModule.create_test_suite m sn sid now = Except.ok (u, ev)) :
    u = { session_id := m.session_id, module_id := m.module_id, suite_id := sid } := by
  unfold TestModule.create_test_suite at h
  split at h
  · simp at h
  · simp at h
    exact h.1.symm

/-- Shape of a successful `create_test`: the test handle copies the session,
module and suite ids and takes the foreign-assigned test id. -/
theorem create_test_ok (u : TestSuite) (tn : String) (tid : Nat)
    (now : topt_UnixTime) (t : Test) (ev : List FFIEvent)
    (h : TestSuite.create_test u tn tid now = Except.ok (t, ev)) :
    t = { session_id := u.session_id, module_id := u.module_id,
          suite_id := u.suite_id, test_id := tid } := by
  unfold TestSuite.create_test at h
  split at h
  · simp at h
  · simp at h
    exact h.1.symm

/-- Claim C2: any host string argument with an embedded null byte makes the
marshaling operation fail locally with the encoding error and an empty event
trace — no boundary call is made (shown for `Test::set_string_tag`,
`Test::set_error_info` and `TestSession::init_with_values`). -/
theorem outbound_null_byte_fails_locally
    (t : Test) (key value e1 e2 e3 lang rt rtv : String) (wd : Option String)
    (mock : Bool) (foreignRaw initRaw newSessionId : Nat) (now : topt_UnixTime) :
    ((hasNullByte key || hasNullByte value) = true →
      Test.set_string_tag t key value foreignRaw
        = (Except.error EncodingError.nulError, []))
  ∧ ((hasNullByte e1 || hasNullByte e2 || hasNullByte e3) = true →
      Test.set_error_info t e1 e2 e3 foreignRaw
        = (Except.error EncodingError.nulError, []))
  ∧ ((hasNullByte lang || hasNullByte rt || hasNullByte rtv ||
        (match wd with | some w => hasNullByte w | none => false)) = true →
      TestSession.init_with_values lang rt rtv wd mock initRaw newSessionId now
        = (Except.error EncodingError.nulError, [])) := by
  refine ⟨fun h => ?_, fun h => ?_, fun h => ?_⟩
  · by_cases hk : hasNullByte key = true
    · simp [Test.set_string_tag, CString.new, hk]
    · have hk' : hasNullByte key = false := by simpa using hk
      have hv : hasNullByte value = true := by simpa [hk'] using h
      simp [Test.set_string_tag, CString.new, hk', hv]
  · by_cases h1 : hasNullByte e1 = true
    · simp [Test.set_error_info, CString.new, h1]
    · have h1' : hasNullByte e1 = false := by simpa using h1
      by_cases h2 : hasNullByte e2 = true
      · simp [Test.set_error_info, CString.new, h1', h2]
      · have h2' : hasNullByte e2 = false := by simpa using h2
        have h3 : hasNullByte e3 = true := by simpa [h1', h2'] using h
        simp [Test.set_error_info, CString.new, h1', h2', h3]
  · by_cases hl : hasNullByte lang = true
    · simp [TestSession.init_with_values, CString.new, hl]
    · have hl' : hasNullByte lang = false := by simpa using hl
      by_cases hr : hasNullByte rt = true
      · simp [TestSession.init_with_values, CString.new, hl', hr]
      · have hr' : hasNullByte rt = false := by simpa using hr
        by_cases hv : hasNullByte rtv = true
        · simp [TestSession.init_with_values, CString.new, hl', hr', hv]
        · have hv' : hasNullByte rtv = false := by simpa using hv
          match wd with
          | none => simp [hl', hr', hv'] at h
          | some w =>
            have hw : hasNullByte w = true := by simpa [hl', hr', hv'] using h
            simp [TestSession.init_with_values, CString.new, CString.newOpt,
              hl', hr', hv', hw]

/-- Witness for C2 at a concrete null-byte input. -/
theorem outbound_null_byte_fails_locally_witness :
    (hasNullByte "a\x00b" || hasNullByte "v") = true ∧
      Test.set_string_tag
          { session_id := 1, module_id := 2, suite_id := 3, test_id := 4 }
          "a\x00b" "v" 1
        = (Except.error EncodingError.nulError, []) :=
  ⟨by decide,
    (outbound_null_byte_fails_locally
        { session_id := 1, module_id := 2, suite_id := 3, test_id := 4 }
        "a\x00b" "v" "" "" "" "" "" "" none false 1 1 0
        { sec := 0, nsec := 0 }).1 (by decide)⟩

/-- Claim C5: the ancestor-id chain is copied from the parent handle at each
creation step: a test created under suite `u`, itself created under module
`m`, itself created under session `s`, carries exactly the ids of `s`, `m`
and `u`. -/
theorem ancestor_id_chain_preserved
    (s : TestSession) (mn fw fwv sn tn : String) (mid sid tid : Nat)
    (n1 n2 n3 : topt_UnixTime) (m : TestModule) (u : TestSuite) (t : Test)
    (e1 e2 e3 : List FFIEvent)
    (h1 : TestSession.create_module s mn fw fwv mid n1 = Except.ok (m, e1))
    (h2 : TestModule.create_test_suite m sn sid n2 = Except.ok (u, e2))
    (h3 : TestSuite.create_test u tn tid n3 = Except.ok (t, e3)) :
    t.session_id = s.session_id ∧ t.module_id = m.module_id ∧
    t.suite_id = u.suite_id ∧ m.session_id = s.session_id ∧
    u.session_id = s.session_id ∧ u.module_id = m.module_id := by
  have hm := create_module_ok s mn fw fwv mid n1 m e1 h1
  subst hm
  have hu := create_test_suite_ok _ sn sid n2 u e2 h2
  subst hu
  have ht := create_test_ok _ tn tid n3 t e3 h3
  subst ht
  exact ⟨rfl, rfl, rfl, rfl, rfl, rfl⟩

/-- Witness for C5 on a concrete creation chain. -/
theorem ancestor_id_chain_preserved_witness :
    TestSession.create_module { session_id := 7 } "m" "fw" "1.0" 10
        { sec := 0, nsec := 0 }
      = Except.ok ({ session_id := 7, module_id := 10 },
          [FFIEvent.moduleCreate 7 "m" "fw" "1.0" { sec := 0, nsec := 0 }]) ∧
    ({ session_id := 7, module_id := 10, suite_id := 0, test_id := 0 } : Test).session_id
      = ({ session_id := 7 } : TestSession).session_id := by
  constructor
  · rfl
  · have h := ancestor_id_chain_preserved { session_id := 7 } "m" "fw" "1.0" "su" "te"
      10 11 12 { sec := 0, nsec := 0 } { sec := 0, nsec := 0 } { sec := 0, nsec := 0 }
      { session_id := 7, module_id := 10 }
      { session_id := 7, module_id := 10, suite_id := 11 }
      { session_id := 7, module_id := 10, suite_id := 11, test_id := 12 }
      _ _ _ rfl rfl rfl
    exact rfl

/-- Claim C9: on a failed foreign initialization the session handle carries
the `0` sentinel and no foreign session-create call is made; on success the
session id is the one returned by the foreign session-create. -/
theorem init_failure_yields_zero_sentinel
    (lang rt rtv : String) (wd : Option String) (mock : Bool)
    (initRaw newSessionId : Nat) (now : topt_UnixTime)
    (s : TestSession) (evs : List FFIEvent)
    (h : TestSession.init_with_values lang rt rtv wd mock initRaw newSessionId now
          = (Except.ok s, evs)) :
    (Bool_to_bool initRaw = false →
        s.session_id = 0 ∧ evs.all (fun e => !(FFIEvent.isSessionCreate e)) = true) ∧
    (Bool_to_bool initRaw = true → s.session_id = newSessionId) := by
  unfold TestSession.init_with_values at h
  split at h
  · simp at h
  · split at h
    · simp at h
    · split at h
      · simp at h
      · split at h
        · simp at h
        · simp only at h
          split at h
          · rename_i hcond
            simp at h
            refine ⟨fun hfalse => ?_, fun _ => ?_⟩
            · rw [hcond] at hfalse
              cases hfalse
            · rw [← h.1]
          · rename_i hcond
            have hcond' : Bool_to_bool initRaw = false := by
              simpa using hcond
            simp at h
            refine ⟨fun _ => ?_, fun htrue => ?_⟩
            · refine ⟨by rw [← h.1], ?_⟩
              rw [← h.2]
              simp [FFIEvent.isSessionCreate]
            · rw [hcond'] at htrue
              cases htrue

/-- Witness for C9 on a failing initialization (`initRaw = 0`). -/
theorem init_failure_yields_zero_sentinel_witness :
    TestSession.init_with_values "rust" "rustc" "1.0" none false 0 99
        { sec := 0, nsec := 0 }
      = (Except.ok { session_id := 0 },
          [FFIEvent.initLib
            { language := "rust", runtime_name := "rustc", runtime_version := "1.0",
              working_directory := none, use_mock_tracer := 0 }]) ∧
    ({ session_id := 0 } : TestSession).session_id = 0 := by
  constructor
  · rfl
  · exact ((init_failure_yields_zero_sentinel "rust" "rustc" "1.0" none false 0 99
      { sec := 0, nsec := 0 } { session_id := 0 }
      [FFIEvent.initLib
        { language := "rust", runtime_name := "rustc", runtime_version := "1.0",
          working_directory := none, use_mock_tracer := 0 }] rfl).1 rfl).1

/-- Claim C10: the parent-accessor round trip — `get_suite` on a test created
by suite `u` returns a handle with exactly `u`'s ids, and `get_module` on a
suite created by module `m` returns a handle with exactly `m`'s ids. -/
theorem parent_accessor_round_trip
    (m : TestModule) (u u2 : TestSuite) (t : Test) (sn tn : String)
    (sid tid : Nat) (n1 n2 : topt_UnixTime) (e1 e2 : List FFIEvent)
    (h1 : TestSuite.create_test u tn tid n1 = Except.ok (t, e1))
    (h2 : TestModule.create_test_suite m sn sid n2 = Except.ok (u2, e2)) :
    ((Test.get_suite t).suite_id = u.suite_id ∧
     (Test.get_suite t).module_id = u.module_id ∧
     (Test.get_suite t).session_id = u.session_id) ∧
    ((TestSuite.get_module u2).module_id = m.module_id ∧
     (TestSuite.get_module u2).session_id = m.session_id) := by
  have ht := create_test_ok u tn tid n1 t e1 h1
  subst ht
  have hu := create_test_suite_ok m sn sid n2 u2 e2 h2
  subst hu
  exact ⟨⟨rfl, rfl, rfl⟩, ⟨rfl, rfl⟩⟩

/-- Witness for C10 on a concrete creation. -/
theorem parent_accessor_round_trip_witness :
    TestSuite.create_test { session_id := 1, module_id := 2, suite_id := 3 } "t" 4
        { sec := 0, nsec := 0 }
      = Except.ok ({ session_id := 1, module_id := 2, suite_id := 3, test_id := 4 },
          [FFIEvent.testCreate 3 "t" { sec := 0, nsec := 0 }]) ∧
    (Test.get_suite
        { session_id := 1, module_id := 2, suite_id := 3, test_id := 4 }).suite_id
      = ({ session_id := 1, module_id := 2, suite_id := 3 } : TestSuite).suite_id := by
  constructor
  · rfl
  · exact (parent_accessor_round_trip { session_id := 1, module_id := 2 }
      { session_id := 1, module_id := 2, suite_id := 3 }
      { session_id := 1, module_id := 2, suite_id := 3 }
      { session_id := 1, module_id := 2, suite_id := 3, test_id := 4 }
      "s" "t" 3 4 { sec := 0, nsec := 0 } { sec := 0, nsec := 0 }
      [FFIEvent.testCreate 3 "t" { sec := 0, nsec := 0 }]
      [FFIEvent.suiteCreate 2 "s" { sec := 0, nsec := 0 }]
      rfl rfl).1.1

/-- Claim C7 evaluated at the failing input: `set_coverage_data` on an EMPTY
file list still performs the (zero-size) array allocation and still sends the
coverage payload — the empty case is not special-cased. -/
theorem set_coverage_data_empty_still_allocates :
    Test.set_coverage_data
        { session_id := 1, module_id := 2, suite_id := 3, test_id := 4 } []
      = (Except.ok (),
          [FFIEvent.allocArray 0,
           FFIEvent.sendCodeCoveragePayload 1 3 4 [],
           FFIEvent.deallocArray 0]) :=
  rfl

theorem findA_updateAt_eq {β : Type} (l : List (String × β)) (k : String)
    (init : β) (f : β → β) :
    findA (updateAt l k init f) k = some (f ((findA l k).getD init)) := by
  induction l with
  | nil => simp [updateAt, findA]
  | cons p rest ih =>
    obtain ⟨k0, v⟩ := p
    by_cases h : k0 = k
    · simp [updateAt, findA, h]
    · simp [updateAt, findA, h, ih]

theorem findA_updateAt_ne {β : Type} (l : List (String × β)) (k k' : String)
    (init : β) (f : β → β) (hne : k' ≠ k) :
    findA (updateAt l k init f) k' = findA l k' := by
  induction l with
  | nil => simp [updateAt, findA, Ne.symm hne]
  | cons p rest ih =>
    obtain ⟨k0, v⟩ := p
    by_cases h : k0 = k
    · subst h
      simp [updateAt, findA, Ne.symm hne]
    · by_cases h' : k0 = k'
      · simp [updateAt, findA, h, h', hne]
      · simp [updateAt, findA, h, h', ih]

theorem findA_append_single {β : Type} (l : List (String × β)) (k : String)
    (v : β) (h : findA l k = none) : findA (l ++ [(k, v)]) k = some v := by
  induction l with
  | nil => simp [findA]
  | cons p rest ih =>
    obtain ⟨k0, w⟩ := p
    by_cases hk : k0 = k
    · simp [findA, hk] at h
    · simp [findA, hk] at h ⊢
      exact ih h

theorem findA_append_single_ne {β : Type} (l : List (String × β)) (k k' : String)
    (v : β) (hne : k' ≠ k) : findA (l ++ [(k, v)]) k' = findA l k' := by
  induction l with
  | nil => simp [findA, Ne.symm hne]
  | cons p rest ih =>
    obtain ⟨k0, w⟩ := p
    by_cases h : k0 = k' <;> simp [findA, h, ih]

theorem findA_insertIfAbsent_eq {β : Type} (l : List (String × β)) (k : String)
    (v : β) : findA (insertIfAbsent l k v) k = some ((findA l k).getD v) := by
  unfold insertIfAbsent
  cases hf : findA l k with
  | some w => simp [hf]
  | none => simp [hf, findA_append_single l k v hf]

theorem findA_insertIfAbsent_ne {β : Type} (l : List (String × β)) (k k' : String)
    (v : β) (hne : k' ≠ k) : findA (insertIfAbsent l k v) k' = findA l k' := by
  unfold insertIfAbsent
  split
  · rfl
  · exact findA_append_single_ne l k k' v hne

theorem find3_tmInsert (acc : TMMap) (r : TestManagementTest) (m s t : String) :
    find3 (tmInsert acc r) m s t =
      if tmMatches m s t r = true then
        (match find3 acc m s t with
         | some v => some v
         | none => some r)
      else find3 acc m s t := by
  by_cases hm : r.module_name = m
  · subst hm
    by_cases hs : r.suite_name = s
    · subst hs
      by_cases ht : r.test_name = t
      · subst ht
        simp only [tmMatches, decide_True, Bool.and_self, if_pos]
        unfold tmInsert find3
        rw [findA_updateAt_eq]
        cases hacc : findA acc r.module_name with
        | none =>
          simp [hacc, findA_updateAt_eq, findA_insertIfAbsent_eq, findA]
        | some suites =>
          simp only [hacc, Option.getD_some]
          rw [findA_updateAt_eq]
          cases hsu : findA suites r.suite_name with
          | none => simp [hsu, findA_insertIfAbsent_eq, findA]
          | some tests =>
            simp only [hsu, Option.getD_some, findA_insertIfAbsent_eq]
            cases htt : findA tests r.test_name <;> simp [htt]
      · have hmatch : tmMatches r.module_name r.suite_name t r = false := by
          simp [tmMatches, ht]
        simp only [hmatch, Bool.false_eq_true, if_neg, not_false_iff]
        unfold tmInsert find3
        rw [findA_updateAt_eq]
        cases hacc : findA acc r.module_name with
        | none =>
          simp [hacc, updateAt, insertIfAbsent, findA, ht]
        | some suites =>
          simp only [hacc, Option.getD_some]
          rw [findA_updateAt_eq]
          cases hsu : findA suites r.suite_name with
          | none =>
            simp [hsu, insertIfAbsent, findA, ht]
          | some tests =>
            simp only [hsu, Option.getD_some]
            rw [findA_insertIfAbsent_ne tests r.test_name t r (Ne.symm ht)]
    · have hmatch : tmMatches r.module_name s t r = false := by
        simp [tmMatches, hs]
      simp only [hmatch, Bool.false_eq_true, if_neg, not_false_iff]
      unfold tmInsert find3
      rw [findA_updateAt_eq]
      cases hacc : findA acc r.module_name with
      | none =>
        simp [hacc, updateAt, findA, hs]
      | some suites =>
        simp only [hacc, Option.getD_some]
        rw [findA_updateAt_ne suites r.suite_name s []
          (fun tests => insertIfAbsent tests r.test_name r) (Ne.symm hs)]
  · have hmatch : tmMatches m s t r = false := by
      simp [tmMatches, hm]
    simp only [hmatch, Bool.false_eq_true, if_neg, not_false_iff]
    unfold tmInsert find3
    rw [findA_updateAt_ne acc r.module_name m []
      (fun suites => updateAt suites r.suite_name []
        (fun tests => insertIfAbsent tests r.test_name r)) (Ne.symm hm)]

theorem find3_foldl_tmInsert (recs : List TestManagementTest) (acc : TMMap)
    (m s t : String) :
    find3 (recs.foldl tmInsert acc) m s t =
      (match find3 acc m s t with
       | some v => some v
       | none => recs.find? (tmMatches m s t)) := by
  induction recs generalizing acc with
  | nil =>
    simp only [List.foldl_nil]
    cases h : find3 acc m s t <;> simp [List.find?]
  | cons r rest ih =>
    simp only [List.foldl_cons]
    rw [ih, find3_tmInsert]
    by_cases hr : tmMatches m s t r = true
    · rw [if_pos hr]
      cases h : find3 acc m s t with
      | some v => simp
      | none => simp [List.find?, hr]
    · have hr' : tmMatches m s t r = false := by simpa using hr
      rw [if_neg hr]
      cases h : find3 acc m s t with
      | some v => simp
      | none => simp [List.find?, hr']

theorem tmAux_eq (raw : List topt_TestManagementTestProperties) (acc : TMMap) :
    tmAux raw acc = (decodeTMList raw).map (fun recs => recs.foldl tmInsert acc) := by
  induction raw generalizing acc with
  | nil => rfl
  | cons e rest ih =>
    cases hd : decodeTMRecord e with
    | error err =>
      simp [tmAux, decodeTMList, hd, Except.map]
    | ok r =>
      simp only [tmAux, decodeTMList, hd]
      rw [ih]
      cases hr : decodeTMList rest with
      | error err => simp [Except.map]
      | ok rs => simp [Except.map]

/-- Claim C8: `get_test_management_tests` builds the nested map with
insert-if-absent semantics — the record for each (module, suite, test) key is
the one built from the FIRST foreign entry with those names; later entries
for the same key are ignored, never overwritten. -/
theorem test_management_first_entry_kept
    (raw : List topt_TestManagementTestProperties)
    (recs : List TestManagementTest) (mm : TMMap) (m s t : String)
    (hdec : decodeTMList raw = Except.ok recs)
    (h : TestSession.get_test_management_tests raw = Except.ok mm) :
    find3 mm m s t = recs.find? (tmMatches m s t) := by
  unfold TestSession.get_test_management_tests at h
  rw [tmAux_eq, hdec] at h
  simp [Except.map] at h
  subst h
  rw [find3_foldl_tmInsert]
  simp [find3, findA]

/-- Witness for C8: two foreign entries share the (module, suite, test) key
with different flags; the map keeps the record built from the first. -/
theorem test_management_first_entry_kept_witness :
    decodeTMList
        [{ module_name := some "m", suite_name := some "s", test_name := some "t",
           quarantined := 1, disabled := 0, attempt_to_fix := 0 },
         { module_name := some "m", suite_name := some "s", test_name := some "t",
           quarantined := 0, disabled := 1, attempt_to_fix := 0 }]
      = Except.ok
          [{ module_name := "m", suite_name := "s", test_name := "t",
             quarantined := true, disabled := false, attempt_to_fix := false },
           { module_name := "m", suite_name := "s", test_name := "t",
             quarantined := false, disabled := true, attempt_to_fix := false }] ∧
    TestSession.get_test_management_tests
        [{ module_name := some "m", suite_name := some "s", test_name := some "t",
           quarantined := 1, disabled := 0, attempt_to_fix := 0 },
         { module_name := some "m", suite_name := some "s", test_name := some "t",
           quarantined := 0, disabled := 1, attempt_to_fix := 0 }]
      = Except.ok
          [("m", [("s", [("t",
              { module_name := "m", suite_name := "s", test_name := "t",
                quarantined := true, disabled := false, attempt_to_fix := false })])])] ∧
    find3
        [("m", [("s", [("t",
            { module_name := "m", suite_name := "s", test_name := "t",
              quarantined := true, disabled := false, attempt_to_fix := false })])])]
        "m" "s" "t"
      = List.find? (tmMatches "m" "s" "t")
          [{ module_name := "m", suite_name := "s", test_name := "t",
             quarantined := true, disabled := false, attempt_to_fix := false },
           { module_name := "m", suite_name := "s", test_name := "t",
             quarantined := false, disabled := true, attempt_to_fix := false }] := by
  refine ⟨rfl, rfl, ?_⟩
  exact test_management_first_entry_kept
    [{ module_name := some "m", suite_name := some "s", test_name := some "t",
       quarantined := 1, disabled := 0, attempt_to_fix := 0 },
     { module_name := some "m", suite_name := some "s", test_name := some "t",
       quarantined := 0, disabled := 1, attempt_to_fix := 0 }]
    [{ module_name := "m", suite_name := "s", test_name := "t",
       quarantined := true, disabled := false, attempt_to_fix := false },
     { module_name := "m", suite_name := "s", test_name := "t",
       quarantined := false, disabled := true, attempt_to_fix := false }]
    [("m", [("s", [("t",
        { module_name := "m", suite_name := "s", test_name := "t",
          quarantined := true, disabled := false, attempt_to_fix := false })])])]
    "m" "s" "t" rfl rfl

theorem knownAux_null_field_fails (l : List topt_KnownTest) (r : topt_KnownTest)
    (hmem : r ∈ l) (hnull : hasNullNameField r = true) (acc : KnownTestsMap) :
    knownAux l acc = Except.error DecodeError.nullPointer := by
  induction hmem generalizing acc with
  | head as =>
    obtain ⟨mn, sn, tn⟩ := r
    cases mn <;> cases sn <;> cases tn <;>
      simp_all [knownAux, decodeCStr, hasNullNameField]
  | tail b hmem ih =>
    cases hm : decodeCStr b.module_name with
    | error err =>
      cases err
      simp [knownAux, hm]
    | ok m =>
      cases hs : decodeCStr b.suite_name with
      | error err =>
        cases err
        simp [knownAux, hm, hs]
      | ok s =>
        cases ht : decodeCStr b.test_name with
        | error err =>
          cases err
          simp [knownAux, hm, hs, ht]
        | ok t =>
          simp only [knownAux, hm, hs, ht]
          exact ih _

theorem tmAux_null_field_fails (l : List topt_TestManagementTestProperties)
    (r : topt_TestManagementTestProperties) (hmem : r ∈ l)
    (hnull : tmHasNullNameField r = true) (acc : TMMap) :
    tmAux l acc = Except.error DecodeError.nullPointer := by
  induction hmem generalizing acc with
  | head as =>
    obtain ⟨mn, sn, tn, q, d, a⟩ := r
    cases mn <;> cases sn <;> cases tn <;>
      simp_all [tmAux, decodeTMRecord, decodeCStr, tmHasNullNameField]
  | tail b hmem ih =>
    cases hd : decodeTMRecord b with
    | error err =>
      cases err
      simp [tmAux, hd]
    | ok rr =>
      simp only [tmAux, hd]
      exact ih _

theorem convert_key_value_array_normalize
    (array : Option (List (Option String × Option String))) :
    MockTracer.convert_key_value_array array
      = MockTracer.convert_key_value_array (normalizeKV array) := by
  cases array with
  | none => rfl
  | some pairs =>
    simp only [MockTracer.convert_key_value_array, normalizeKV, List.foldl_map]
    rfl

theorem convert_key_number_array_normalize
    (array : Option (List (Option String × Float))) :
    MockTracer.convert_key_number_array array
      = MockTracer.convert_key_number_array (normalizeKN array) := by
  cases array with
  | none => rfl
  | some pairs =>
    simp only [MockTracer.convert_key_number_array, normalizeKN, List.foldl_map]
    rfl

theorem convert_mock_span_normalize (mock : topt_MockSpan) :
    MockTracer.convert_mock_span mock
      = MockTracer.convert_mock_span (normalizeMockSpan mock) := by
  unfold MockTracer.convert_mock_span normalizeMockSpan
  rw [← convert_key_value_array_normalize, ← convert_key_number_array_normalize]
  simp [cstrOrEmpty]

theorem skippableAux_null_field_fails (l : List topt_SkippableTestProperties)
    (r : topt_SkippableTestProperties) (hmem : r ∈ l)
    (hnull : skHasNullField r = true) (acc : SkippableTestsMap) :
    skippableAux l acc = Except.error DecodeError.nullPointer := by
  induction hmem generalizing acc with
  | head as =>
    obtain ⟨sn, tn, pa, cc⟩ := r
    cases sn <;> cases tn <;> cases pa <;> cases cc <;>
      simp_all [skippableAux, decodeCStr, skHasNullField]
  | tail b hmem ih =>
    cases hs : decodeCStr b.suite_name with
    | error err =>
      cases err
      simp [skippableAux, hs]
    | ok s =>
      cases ht : decodeCStr b.test_name with
      | error err =>
        cases err
        simp [skippableAux, hs, ht]
      | ok t =>
        cases hp : decodeCStr b.parameters with
        | error err =>
          cases err
          simp [skippableAux, hs, ht, hp]
        | ok pa =>
          cases hc : decodeCStr b.custom_configurations_json with
          | error err =>
            cases err
            simp [skippableAux, hs, ht, hp, hc]
          | ok cc =>
            simp only [skippableAux, hs, ht, hp, hc]
            exact ih _

/-- Claim C6 (amended): in the MOCK decoders every null foreign string field
decodes to the empty host string and never causes a failure — the key/value
and key/number tag converters and the span converter (operation name
included) are total and decode an array exactly as they decode it with every
null field replaced by an empty string; but in the catalog decoders
(`get_known_tests`, `get_skippable_tests`, `get_test_management_tests`) the
string fields are passed to `CStr::from_ptr` without a null check, and a null
field there makes the decode fail instead of producing an empty string. -/
theorem null_string_field_decode
    (kvArray : Option (List (Option String × Option String)))
    (knArray : Option (List (Option String × Float)))
    (span : topt_MockSpan)
    (kl : List topt_KnownTest) (kr : topt_KnownTest)
    (sl : List topt_SkippableTestProperties) (sr : topt_SkippableTestProperties)
    (raw : List topt_TestManagementTestProperties)
    (e : topt_TestManagementTestProperties) :
    (MockTracer.convert_key_value_array kvArray
        = MockTracer.convert_key_value_array (normalizeKV kvArray)) ∧
    (MockTracer.convert_key_number_array knArray
        = MockTracer.convert_key_number_array (normalizeKN knArray)) ∧
    (MockTracer.convert_mock_span span
        = MockTracer.convert_mock_span (normalizeMockSpan span)) ∧
    (kr ∈ kl → hasNullNameField kr = true →
        TestSession.get_known_tests kl = Except.error DecodeError.nullPointer) ∧
    (sr ∈ sl → skHasNullField sr = true →
        TestSession.get_skippable_tests sl
          = Except.error DecodeError.nullPointer) ∧
    (e ∈ raw → tmHasNullNameField e = true →
        TestSession.get_test_management_tests raw
          = Except.error DecodeError.nullPointer) :=
  ⟨convert_key_value_array_normalize kvArray,
   convert_key_number_array_normalize knArray,
   convert_mock_span_normalize span,
   fun hmem hnull => knownAux_null_field_fails kl kr hmem hnull [],
   fun hmem hnull => skippableAux_null_field_fails sl sr hmem hnull [],
   fun hmem hnull => tmAux_null_field_fails raw e hmem hnull []⟩

/-- Counterexample for C6 as stated: a known-tests record whose module name
is null makes `get_known_tests` fail; the null field is NOT decoded to an
empty host string. -/
theorem null_string_field_decode_counterexample :
    TestSession.get_known_tests
        [{ module_name := none, suite_name := some "s", test_name := some "t" }]
      = Except.error DecodeError.nullPointer :=
  rfl

/-- Witness for C6 at concrete inputs: a mock span with a null operation
name and null tag fields decodes like one with empty strings, while a
null-field skippable record and a null-name known-tests record both make
their catalog decode fail. -/
theorem null_string_field_decode_witness :
    MockTracer.convert_mock_span
        { span_id := 1, trace_id := 2, parent_span_id := 3,
          start_time := { sec := 0, nsec := 0 },
          finish_time := { sec := 0, nsec := 0 },
          operation_name := none, string_tags := some [(none, none)],
          number_tags := none }
      = MockTracer.convert_mock_span
          (normalizeMockSpan
            { span_id := 1, trace_id := 2, parent_span_id := 3,
              start_time := { sec := 0, nsec := 0 },
              finish_time := { sec := 0, nsec := 0 },
              operation_name := none, string_tags := some [(none, none)],
              number_tags := none }) ∧
    ({ suite_name := none, test_name := some "t", parameters := some "p",
       custom_configurations_json := some "c" } : topt_SkippableTestProperties)
      ∈ [({ suite_name := none, test_name := some "t", parameters := some "p",
            custom_configurations_json := some "c" } :
          topt_SkippableTestProperties)] ∧
    skHasNullField
        { suite_name := none, test_name := some "t", parameters := some "p",
          custom_configurations_json := some "c" }
      = true ∧
    TestSession.get_skippable_tests
        [{ suite_name := none, test_name := some "t", parameters := some "p",
           custom_configurations_json := some "c" }]
      = Except.error DecodeError.nullPointer ∧
    ({ module_name := none, suite_name := some "s", test_name := some "t" } :
        topt_KnownTest)
      ∈ [({ module_name := none, suite_name := some "s", test_name := some "t" } :
        topt_KnownTest)] ∧
    hasNullNameField
        { module_name := none, suite_name := some "s", test_name := some "t" }
      = true ∧
    TestSession.get_known_tests
        [{ module_name := none, suite_name := some "s", test_name := some "t" }]
      = Except.error DecodeError.nullPointer := by
  have h := null_string_field_decode (some [(none, none)]) none
    { span_id := 1, trace_id := 2, parent_span_id := 3,
      start_time := { sec := 0, nsec := 0 },
      finish_time := { sec := 0, nsec := 0 },
      operation_name := none, string_tags := some [(none, none)],
      number_tags := none }
    [{ module_name := none, suite_name := some "s", test_name := some "t" }]
    { module_name := none, suite_name := some "s", test_name := some "t" }
    [{ suite_name := none, test_name := some "t", parameters := some "p",
       custom_configurations_json := some "c" }]
    { suite_name := none, test_name := some "t", parameters := some "p",
      custom_configurations_json := some "c" }
    []
    { module_name := none, suite_name := none, test_name := none,
      quarantined := 0, disabled := 0, attempt_to_fix := 0 }
  exact ⟨h.2.2.1, List.Mem.head _, by decide,
    h.2.2.2.2.1 (List.Mem.head _) (by decide),
    List.Mem.head _, by decide,
    h.2.2.2.1 (List.Mem.head _) (by decide)⟩
